import Mathlib

/-!
Verification development for the pixai meme-classification repository.

The development embeds, in Lean, the decision logic of src/model.py
(the predict post-processing) and the text canonicalization pipeline of
src/text_normalizer.py (get_norm, filter_noise_keywords, the quote and
UNICODE_REPLACEMENTS alternation passes, the URL handler regex, and
process_extracted_text), and proves properties of these embeddings.

Strings are modelled as List Char (Python strings are sequences of
Unicode code points).  Python str.lower is modelled by Char.toLower,
which agrees with Python on every code point appearing in the tables of
the source (ASCII letters; Bangla code points are fixed points of both).
-/

set_option maxHeartbeats 1600000

/-! ### Classifier decision logic (src/model.py, predict, lines 153-183)

The network forward pass produces one real logit; predict applies
torch.sigmoid and derives the result record.  The logit is modelled as an
arbitrary real number, and torch.sigmoid as x maps to 1 / (1 + exp (-x)).
-/

structure PredictionResult where
  prediction : String
  confidence : ℝ
  political_probability : ℝ
  non_political_probability : ℝ

noncomputable def sigmoid (x : ℝ) : ℝ := 1 / (1 + Real.exp (-x))

noncomputable def predict (logit : ℝ) : PredictionResult :=
  { prediction := if sigmoid logit > 0.5 then "Political" else "NonPolitical"
    confidence := if sigmoid logit > 0.5 then sigmoid logit else 1 - sigmoid logit
    political_probability := sigmoid logit
    non_political_probability := 1 - sigmoid logit }

/-! ### Noise-keyword filtering (src/text_normalizer.py, lines 649-820)

Python substring containment (the in operator) is modelled by the
executable isSubB; isPreB is the corresponding prefix test.
-/

def isPreB : List Char → List Char → Bool
  | [], _ => true
  | _ :: _, [] => false
  | p :: ps, c :: cs => (c = p) && isPreB ps cs

def isSubB : List Char → List Char → Bool
  | p, [] => p.isEmpty
  | p, s@(_ :: cs) => isPreB p s || isSubB p cs

/-- get_norm (line 787-789): lowercase, then remove the space character
U+0020.  Python replace removes only U+0020, not other whitespace. -/
def get_norm (s : List Char) : List Char :=
  (s.map Char.toLower).filter (fun c => !(c = ' '))

/-- The normalization as worded by the specification: lowercase, all
whitespace removed.  Used only to compare the spec wording with the code
(get_norm); it is not part of the embedded program. -/
def get_norm_specWording (s : List Char) : List Char :=
  (s.map Char.toLower).filter (fun c => !c.isWhitespace)

/-- NOISE_KEYWORDS (lines 649-714), in source order. -/
def NOISE_KEYWORDS : List (List Char) :=
  [ ['\u0064', '\u0061', '\u0069', '\u006c', '\u0079', '\u0068', '\u0075', '\u006e', '\u0074'],
    ['\u0044', '\u006f', '\u0077', '\u006e', '\u006c', '\u006f', '\u0061', '\u0064'],
    ['\u0047', '\u006f', '\u006f', '\u0067', '\u006c', '\u0065', '\u0020', '\u0050', '\u006c', '\u0061', '\u0079'],
    ['\u004d', '\u0072', '\u0034', '\u0032', '\u0030', '\u002e', '\u0042', '\u0044'],
    ['\u004f', '\u0046', '\u0046', '\u0020', '\u004a', '\u0041', '\u0041'],
    ['\u006d', '\u0061', '\u0069', '\u0072', '\u0061', '\u006c', '\u0061'],
    ['\u006d', '\u0065', '\u006d', '\u0065', '\u0073'],
    ['\u004d', '\u0045', '\u004d', '\u0045'],
    ['\u0063', '\u0072', '\u0069', '\u006e', '\u0067', '\u0065'],
    ['\u0073', '\u0065', '\u0072', '\u0069', '\u006f', '\u0075', '\u0073', '\u006c', '\u0079'],
    ['\u0066', '\u0061', '\u006b', '\u0069', '\u0062', '\u0061', '\u006a', '\u0069'],
    ['\u0066', '\u0061', '\u006b', '\u0069'],
    ['\u0073', '\u0061', '\u0067', '\u006f', '\u0072', '\u006d', '\u0065', '\u006d', '\u0065'],
    ['\u0074', '\u0061', '\u006e', '\u0067', '\u0061', '\u0069', '\u006c', '\u0061'],
    ['\u0073', '\u0061', '\u0072', '\u0063', '\u0061', '\u0073', '\u006d', '\u0062', '\u0064'],
    ['\u0053', '\u0068', '\u0061', '\u006e', '\u0074', '\u006f'],
    ['\u0066', '\u0065', '\u0072', '\u0064', '\u006f', '\u0075', '\u0073', '\u0068'],
    ['\u0066', '\u0020', '\u002f', '\u0066', '\u0065', '\u0072', '\u0064', '\u006f', '\u0075', '\u0073', '\u0068', '\u002e', '\u0053', '\u0068', '\u0061', '\u006e', '\u0074', '\u006f'],
    ['\u0046', '\u0042', '\u002f', '\u0046', '\u0041', '\u004b', '\u0049', '\u0042', '\u0041', '\u004a', '\u0049', '\u0042', '\u0044'],
    ['\u0043', '\u0068', '\u006f', '\u0072', '\u006b', '\u0069', '\u0020', '\u004f', '\u0052', '\u0049', '\u0047', '\u0049', '\u004e', '\u0041', '\u004c', '\u0020', '\u0046', '\u0049', '\u004c', '\u004d'],
    ['\u0043', '\u0068', '\u006f', '\u0072', '\u006b', '\u0069'],
    ['\u004e', '\u0045', '\u0057', '\u0053', '\u0032', '\u0034'],
    ['\u0042', '\u0065', '\u006e', '\u0067', '\u0061', '\u006c', '\u0069', '\u005f', '\u0074', '\u0068', '\u0075', '\u0067', '\u005f', '\u006c', '\u0069', '\u0066', '\u0065'],
    ['\u0042', '\u0041', '\u004e', '\u0047', '\u004c', '\u0041', '\u0020', '\u0054', '\u0052', '\u004f', '\u004c', '\u004c'],
    ['\u004b', '\u006f', '\u0069', '\u0020', '\u004a', '\u0061', '\u0061', '\u0061', '\u0073', '\u0073', '\u0073'],
    ['\u006e', '\u0069', '\u0069', '\u006c', '\u0061', '\u0064', '\u0072', '\u006f', '\u002e', '\u0068', '\u0072', '\u0069', '\u0064', '\u006f', '\u0079'],
    ['\u0046', '\u0042', '\u002e', '\u0043', '\u004f', '\u004d', '\u002f', '\u0045', '\u0074', '\u004f', '\u004b', '\u0068', '\u0075', '\u0073', '\u0068', '\u0069'],
    ['\u0066', '\u002e', '\u006d', '\u0065', '\u006d', '\u0065', '\u0073'],
    ['\u0042', '\u0061', '\u006e', '\u0067', '\u006c', '\u0065', '\u004d', '\u0065', '\u006d', '\u0065'],
    ['\u004b', '\u0045', '\u0055', '\u0020', '\u0041', '\u004d', '\u0041', '\u0052', '\u0045'],
    ['\u0053', '\u0041', '\u004d', '\u0041', '\u004b', '\u0041', '\u004c', '\u002e', '\u0043', '\u004f', '\u004d'],
    ['\u0049', '\u006e', '\u0064', '\u0069', '\u0061', '\u006e', '\u004f', '\u0069', '\u006c'],
    ['\u006a', '\u0075', '\u006e', '\u0063', '\u0074', '\u0069', '\u006f', '\u006e', '\u09ac', '\u09be', '\u0982', '\u09b2', '\u09be'],
    ['\u004c', '\u0069', '\u006e', '\u006b', '\u0065', '\u0064', '\u0049', '\u006e'],
    ['\u004d', '\u0069', '\u0063', '\u0072', '\u006f', '\u0073', '\u006f', '\u0066', '\u0074'],
    ['\u0042', '\u0041', '\u004e', '\u0047', '\u004c', '\u0041', '\u0054', '\u0052', '\u004f', '\u004c', '\u004c', '\u002e', '\u0043', '\u004f', '\u004d'],
    ['\u006a', '\u0068', '\u0061', '\u006b', '\u006b', '\u0061', '\u0073', '\u0073', '\u0073'],
    ['\u0052', '\u0061', '\u0068', '\u0075', '\u006c', '\u0020', '\u0049', '\u0073', '\u006c', '\u0061', '\u006d'],
    ['\u006d', '\u0065', '\u006d', '\u0065', '\u0066', '\u006f', '\u0078', '\u006f', '\u0066', '\u0066', '\u0069', '\u0063', '\u0069', '\u0061', '\u006c'],
    ['\u0041', '\u0073', '\u0072', '\u0061', '\u0066', '\u0075', '\u006c', '\u0020', '\u004d', '\u0065', '\u006d', '\u0065', '\u0027', '\u0073'],
    ['\u0069', '\u006d', '\u0067', '\u0066', '\u006c', '\u0069', '\u0070', '\u002e', '\u0063', '\u006f', '\u006d'],
    ['\u0053', '\u0061', '\u0072', '\u0063', '\u006f', '\u007a', '\u006d'],
    ['\u0046', '\u0061', '\u0069', '\u007a', '\u006c', '\u0061', '\u006d'],
    ['\u0046', '\u0061', '\u0069', '\u007a', '\u006c', '\u0061', '\u006d', '\u0069'],
    ['\u0042', '\u0061', '\u006d', '\u0062', '\u006f', '\u006f', '\u002e', '\u0076', '\u0061', '\u0069', '\u0079', '\u0061'],
    ['\u0052', '\u0041', '\u004e', '\u0054', '\u0041', '\u0047', '\u0045', '\u0053'],
    ['\u0047', '\u004f', '\u0041', '\u0054', '\u0050', '\u004f', '\u0053', '\u0049', '\u004e', '\u0047'],
    ['\u002e', '\u0063', '\u006f', '\u006d'],
    ['\u0052', '\u0047', '\u0056', '\u007a', '\u006f', '\u006f', '\u006d', '\u0069', '\u006e'],
    ['\u0046', '\u006f', '\u006c', '\u006c', '\u006f', '\u0077'],
    ['\u0040', '\u0063', '\u0068', '\u0061', '\u0072', '\u006c', '\u0069', '\u0065', '\u006b', '\u0069', '\u0072', '\u006b', '\u0031', '\u0031'],
    ['\u0053', '\u0061', '\u006a', '\u0065', '\u0064', '\u0075', '\u006c', '\u005f', '\u0049', '\u0073', '\u006c', '\u0061', '\u006d'],
    ['\u0040', '\u0054', '\u0061', '\u006d', '\u0069', '\u006d'],
    ['\u006a', '\u0075', '\u0064', '\u0061', '\u0073'],
    ['\u0061', '\u006c', '\u006d', '\u0061', '\u006d', '\u0075', '\u006e', '\u006b'],
    ['\u0040', '\u0072', '\u0078', '\u0068'],
    ['\u0040', '\u0041', '\u0074', '\u0069', '\u0066'],
    ['\u0052', '\u0069', '\u006d', '\u006f', '\u006e', '\u0020', '\u0042', '\u0072', '\u006f'],
    ['\u0061', '\u0062', '\u002e', '\u006d', '\u0065', '\u006d', '\u0065', '\u0070', '\u006f', '\u0073', '\u0074', '\u0069', '\u006e', '\u0067'],
    ['\u0040', '\u006d', '\u0061', '\u0068', '\u0064', '\u0069'],
    ['\u0040', '\u0072', '\u006f', '\u006c', '\u0065', '\u0078', '\u0068', '\u0061', '\u006c', '\u0069', '\u006d'],
    ['\u0040', '\u0061', '\u0073', '\u0068'],
    ['\u0061', '\u006b', '\u0068', '\u0069', '\u0062'],
    ['\u0066', '\u0062', '\u002e', '\u0063', '\u006f', '\u006d'] ]

/-- The inner loop of filter_noise_keywords (lines 810-815): scan the
keyword table in order and return the first keyword whose normalized form
is contained in the given normalized item, if any. -/
def findKw : List (List Char) → List Char → Option (List Char)
  | [], _ => none
  | kw :: rest, normItem =>
    if isSubB (get_norm kw) normItem then some kw else findKw rest normItem

/-- filter_noise_keywords (lines 792-820).  Returns the retained items in
order, together with the list of keywords credited for the dropped items
(one credit per dropped item, in item order; the Python Counter is the
multiset of this list). -/
def filter_noise_keywords : List (List Char) → List (List Char) × List (List Char)
  | [] => ([], [])
  | item :: rest =>
    let r := filter_noise_keywords rest
    match findKw NOISE_KEYWORDS (get_norm item) with
    | some kw => (r.1, kw :: r.2)
    | none => (item :: r.1, r.2)

/-! ### Literal-alternation substitution engine

re.sub with a pattern that is an alternation of alternatives, matched
left to right: at each position the alternatives are tried in table
order and the first that matches wins; on a match its replacement is
emitted and scanning resumes after the matched text; otherwise the
current character is copied.  This models UNICODE_REPLACEMENTS_REGEX.sub
(lines 771-776) including its one back-reference alternative
(key at line 539), and the two quote regexes (lines 596-617).
-/

inductive Rule where
  | lit (pat rep : List Char)
  | backref
deriving DecidableEq

def litMatch : List Char → List Char → Option (List Char)
  | [], s => some s
  | _ :: _, [] => none
  | p :: ps, c :: cs => if c = p then litMatch ps cs else none

/-- Matching one alternative at the head of the input.  The backref
alternative is the regex key U+09C7 ( [^U+09D7] ) U+09D7 with replacement
group-1 followed by U+09CC: it consumes three code points and emits the
captured middle code point followed by U+09CC. -/
def matchRule : Rule → List Char → Option (List Char × List Char)
  | .lit p r, s => (litMatch p s).map (fun rest => (r, rest))
  | .backref, c1 :: x :: c3 :: rest =>
    if c1 = '\u09c7' ∧ x ≠ '\u09d7' ∧ c3 = '\u09d7'
      then some ([x, '\u09cc'], rest) else none
  | .backref, _ => none

def tryRules : List Rule → List Char → Option (List Char × List Char)
  | [], _ => none
  | r :: rs, s =>
    match matchRule r s with
    | some res => some res
    | none => tryRules rs s

/-- One left-to-right substitution scan.  The fuel argument only bounds
recursion; it is initialized to the input length, which suffices because
every alternative of every table used here consumes at least one
character. -/
def ruleSubAux (rules : List Rule) : Nat → List Char → List Char
  | _, [] => []
  | 0, s => s
  | fuel + 1, c :: cs =>
    match tryRules rules (c :: cs) with
    | some (rep, rest) => rep ++ ruleSubAux rules fuel rest
    | none => c :: ruleSubAux rules fuel cs

def ruleSub (rules : List Rule) (s : List Char) : List Char :=
  ruleSubAux rules s.length s

/-- UNICODE_REPLACEMENTS (lines 528-591) as an ordered rule list, in
dict insertion order, which is the order of the alternatives in
UNICODE_REPLACEMENTS_REGEX (line 593).  The back-reference key at line
539 is the eleventh entry. -/
def URules : List Rule :=
  [ .lit ['\u00ad'] [],
    .lit ['\u09af', '\u09bc'] ['\u09df'],
    .lit ['\u09a2', '\u09bc'] ['\u09dd'],
    .lit ['\u09a1', '\u09bc'] ['\u09dc'],
    .lit ['\u09ac', '\u09bc'] ['\u09b0'],
    .lit ['\u09c7', '\u09be'] ['\u09cb'],
    .lit ['\u09c7', '\u09d7'] ['\u09cc'],
    .lit ['\u0985', '\u09be'] ['\u0986'],
    .lit ['\u09c7', '\u0981', '\u09d7'] ['\u09cc', '\u0981'],
    .lit ['\u09c7', '\u0981', '\u09be'] ['\u09cb', '\u0981'],
    .backref,
    .lit ['\u00a0'] ['\u0020'],
    .lit ['\u200b'] [],
    .lit ['\u2060'] [],
    .lit ['\u201e'] ['\u0022'],
    .lit ['\u201c'] ['\u0022'],
    .lit ['\u201d'] ['\u0022'],
    .lit ['\u2013'] ['\u002d'],
    .lit ['\u2014'] ['\u0020', '\u002d', '\u0020'],
    .lit ['\u00b4'] ['\u0027'],
    .lit ['\u2018'] ['\u0027'],
    .lit ['\u201a'] ['\u0027'],
    .lit ['\u2019'] ['\u0027'],
    .lit ['\u00b4', '\u00b4'] ['\u0022'],
    .lit ['\u2026'] ['\u002e', '\u002e', '\u002e'],
    .lit ['\u00a0', '\u00ab', '\u00a0'] ['\u0022'],
    .lit ['\u00ab', '\u00a0'] ['\u0022'],
    .lit ['\u00ab'] ['\u0022'],
    .lit ['\u00a0', '\u00bb', '\u00a0'] ['\u0022'],
    .lit ['\u00a0', '\u00bb'] ['\u0022'],
    .lit ['\u00bb'] ['\u0022'],
    .lit ['\u09f7'] ['\u0964'],
    .lit ['\uff0c'] ['\u002c'],
    .lit ['\u3001'] ['\u002c'],
    .lit ['\u2236'] ['\u003a'],
    .lit ['\uff1a'] ['\u003a'],
    .lit ['\uff1f'] ['\u003f'],
    .lit ['\u300a'] ['\u0022'],
    .lit ['\u300b'] ['\u0022'],
    .lit ['\uff09'] ['\u0029'],
    .lit ['\uff01'] ['\u0021'],
    .lit ['\uff08'] ['\u0028'],
    .lit ['\uff1b'] ['\u003b'],
    .lit ['\u300d'] ['\u0022'],
    .lit ['\u300c'] ['\u0022'],
    .lit ['\uff10'] ['\u0030'],
    .lit ['\uff11'] ['\u0031'],
    .lit ['\uff12'] ['\u0032'],
    .lit ['\uff13'] ['\u0033'],
    .lit ['\uff14'] ['\u0034'],
    .lit ['\uff15'] ['\u0035'],
    .lit ['\uff16'] ['\u0036'],
    .lit ['\uff17'] ['\u0037'],
    .lit ['\uff18'] ['\u0038'],
    .lit ['\uff19'] ['\u0039'],
    .lit ['\uff5e'] ['\u007e'],
    .lit ['\u2501'] ['\u002d'],
    .lit ['\u3008'] ['\u003c'],
    .lit ['\u3009'] ['\u003e'],
    .lit ['\u3010'] ['\u005b'],
    .lit ['\u3011'] ['\u005d'],
    .lit ['\uff05'] ['\u0025'] ]

def SINGLE_QUOTE_ALTS : List (List Char) :=
  [ ['\u0027'], ['\u201b'], ['\u0027'], ['\u275b'], ['\u275c'], ['\u0060'], ['\u00b4'], ['\u0027'], ['\u0027'] ]

def DOUBLE_QUOTE_ALTS : List (List Char) :=
  [ ['\u00ab'],
    ['\u2039'],
    ['\u00bb'],
    ['\u203a'],
    ['\u201e'],
    ['\u002c', '\u0020', '\u0022', '\u201f', '\u0022', '\u002c', '\u0020'],
    ['\u275d'],
    ['\u275e'],
    ['\u276e'],
    ['\u276f'],
    ['\u301d'],
    ['\u301e'],
    ['\u301f'],
    ['\uff02'] ]

/-- SINGLE_QUOTE_REGEX.sub (line 719): every alternative is replaced by
an apostrophe. -/
def SQRules : List Rule := SINGLE_QUOTE_ALTS.map (fun a => Rule.lit a ['\u0027'])

/-- DOUBLE_QUOTE_REGEX.sub (line 720): every alternative is replaced by a
double quote.  Note the sixth alternative: in the source file the three
intended curly-quote entries collapse into one triple-quoted Python
string, so the alternation contains that seven-character literal instead
of the two curly double quotes. -/
def DQRules : List Rule := DOUBLE_QUOTE_ALTS.map (fun a => Rule.lit a ['"'])

/-- fix_quotes (lines 717-721): single-quote pass, then double-quote
pass. -/
def fix_quotes (s : List Char) : List Char := ruleSub DQRules (ruleSub SQRules s)

/-! ### Whitespace and character classes -/

/-- The Python str whitespace set (regex \s for str patterns). -/
def pySpace (c : Char) : Bool :=
  c = ' ' || ('\u0009' ≤ c && c ≤ '\u000d') || ('\u001c' ≤ c && c ≤ '\u001f') ||
  c = '\u0085' || c = '\u00a0' || c = '\u1680' ||
  ('\u2000' ≤ c && c ≤ '\u200a') ||
  c = '\u2028' || c = '\u2029' || c = '\u202f' || c = '\u205f' || c = '\u3000'

/-- regex word character (\w).  Restricted to the alphanumeric code
points Char.isAlphanum recognizes plus underscore; this agrees with
Python on the ASCII inputs analyzed in this development. -/
def pyWordChar (c : Char) : Bool := c.isAlphanum || c = '_'

/-- The character class of the negative lookbehind of URL_HANDLER_REGEX
(line 621). -/
def wordSlashDot (c : Char) : Bool := pyWordChar c || c = '/' || c = '.'

/-! ### A regex matcher for URL_HANDLER_REGEX (lines 620-641)

Backtracking regular-expression matching as ordered enumeration of
remainders: the head of the result list is the remainder the Python
engine would leave (alternation is leftmost-preferring, quantifiers are
greedy).  Counted and starred quantifiers are expanded up to a bound n
chosen at the call site as input length + 1, which is exact here because
every quantified subpattern of URL_HANDLER_REGEX consumes at least one
character per iteration.
-/

inductive REx where
  | eps
  | tok (p : Char → Bool)
  | cat (a b : REx)
  | alt (a b : REx)
  | nla (a : REx)

def reMatch : REx → List Char → List (List Char)
  | .eps, s => [s]
  | .tok _, [] => []
  | .tok p, c :: cs => if p c then [cs] else []
  | .cat a b, s => (reMatch a s).flatMap (fun s2 => reMatch b s2)
  | .alt a b, s => reMatch a s ++ reMatch b s
  | .nla a, s => if (reMatch a s).isEmpty then [s] else []

def ropt (a : REx) : REx := .alt a .eps

def starN : Nat → REx → REx
  | 0, _ => .eps
  | n + 1, a => .alt (.cat a (starN n a)) .eps

def rplus (n : Nat) (a : REx) : REx := .cat a (starN n a)

def digitTok : REx := .tok Char.isDigit

def rlitL : List Char → REx
  | [] => .eps
  | c :: cs => .cat (.tok (fun d => d = c)) (rlitL cs)

def rlit (s : String) : REx := rlitL s.toList

/-- Case-insensitive literal (the pattern is compiled with
re.IGNORECASE).  Char.toLower is the identity on non-letters, so a
case-insensitive literal made of punctuation is the same matcher as the
case-sensitive one. -/
def rlitCIL : List Char → REx
  | [] => .eps
  | c :: cs => .cat (.tok (fun d => d.toLower = c.toLower)) (rlitCIL cs)

def rlitCI (s : String) : REx := rlitCIL s.toList

/-- Greedy counted repetition with at most n iterations; digitsUpTo 3 is
the matcher of \d{0,3}, preferring longer matches. -/
def digitsUpTo : Nat → REx
  | 0 => .eps
  | k + 1 => ropt (.cat digitTok (digitsUpTo k))

def dotTok : REx := .tok (fun c => c = '.')

/-- \d{1,3}, greedy. -/
def digits13 : REx := .cat digitTok (ropt (.cat digitTok (ropt digitTok)))

def rep2 (a : REx) : REx := .cat a a

def rep3 (a : REx) : REx := .cat a (.cat a a)

/-- The character class written [a-z\\u00a1-\\uffff0-9] in the source.
Because the backslashes are doubled inside a raw string, the class does
not contain the range U+00A1 to U+FFFF; it parses as the literals a-z,
backslash, u, 0, 0, a, the range from 1 to backslash, u, f, f, f, f and
0-9.  Together with re.IGNORECASE this denotes exactly the code points
from U+0030 to U+005C plus the lowercase letters (uppercase letters fall
inside the range from 1 to backslash).  The TLD class
[a-z\\u00a1-\\uffff] parses to the same set. -/
def urlNameChar (c : Char) : Bool :=
  ('0' ≤ c && c ≤ '\u005c') || ('a' ≤ c && c ≤ 'z')

/-- The scheme group (?:(?:https?:\/\/|ftp:\/\/|www\d{0,3}\.)) of
URL_HANDLER_REGEX (line 622).  It is not optional. -/
def schemeRE : REx :=
  .alt (.cat (rlitCI "http") (.cat (ropt (rlitCI "s")) (rlit "://")))
    (.alt (.cat (rlitCI "ftp") (rlit "://"))
      (.cat (rlitCI "www") (.cat (digitsUpTo 3) (rlit "."))))

/-- The optional user-info group (?:\S+(?::\S*)?@)? (line 623). -/
def userinfoRE (n : Nat) : REx :=
  ropt (.cat (rplus n (.tok (fun c => !pySpace c)))
    (.cat (ropt (.cat (rlit ":") (starN n (.tok (fun c => !pySpace c)))))
      (rlit "@")))

/-- First octet alternatives [1-9]\d?|1\d\d|2[01]\d|22[0-3] (line 628). -/
def octet1 : REx :=
  .alt (.cat (.tok (fun c => '1' ≤ c && c ≤ '9')) (ropt digitTok))
    (.alt (.cat (rlit "1") (.cat digitTok digitTok))
      (.alt (.cat (rlit "2") (.cat (.tok (fun c => c = '0' || c = '1')) digitTok))
        (.cat (rlit "22") (.tok (fun c => '0' ≤ c && c ≤ '3')))))

/-- Middle octet alternatives 1?\d{1,2}|2[0-4]\d|25[0-5] (line 629). -/
def octet2 : REx :=
  .alt (.cat (ropt (rlit "1")) (.cat digitTok (ropt digitTok)))
    (.alt (.cat (rlit "2") (.cat (.tok (fun c => '0' ≤ c && c ≤ '4')) digitTok))
      (.cat (rlit "25") (.tok (fun c => '0' ≤ c && c ≤ '5'))))

/-- Last octet alternatives [1-9]\d?|1\d\d|2[0-4]\d|25[0-4] (line 630). -/
def octet3 : REx :=
  .alt (.cat (.tok (fun c => '1' ≤ c && c ≤ '9')) (ropt digitTok))
    (.alt (.cat (rlit "1") (.cat digitTok digitTok))
      (.alt (.cat (rlit "2") (.cat (.tok (fun c => '0' ≤ c && c ≤ '4')) digitTok))
        (.cat (rlit "25") (.tok (fun c => '0' ≤ c && c ≤ '4')))))

/-- The dotted-quad branch with its three negative lookaheads excluding
the private and loopback ranges (lines 625-630). -/
def ipBranch : REx :=
  .cat (.nla (.cat (.alt (rlit "10") (rlit "127")) (rep3 (.cat dotTok digits13))))
    (.cat (.nla (.cat (.alt (rlit "169.254") (rlit "192.168"))
        (rep2 (.cat dotTok digits13))))
      (.cat (.nla (.cat (rlit "172.")
          (.cat (.alt (.cat (rlit "1") (.tok (fun c => '6' ≤ c && c ≤ '9')))
              (.alt (.cat (rlit "2") digitTok)
                (.cat (rlit "3") (.tok (fun c => c = '0' || c = '1')))))
            (rep2 (.cat dotTok digits13)))))
        (.cat octet1 (.cat (rep2 (.cat dotTok octet2)) (.cat dotTok octet3)))))

/-- (?:[class]-?)*[class]+ (lines 632-633). -/
def namePart (n : Nat) : REx :=
  .cat (starN n (.cat (.tok urlNameChar) (ropt (rlit "-"))))
    (rplus n (.tok urlNameChar))

/-- The domain-with-TLD branch (lines 632-634). -/
def domainBranch (n : Nat) : REx :=
  .cat (namePart n)
    (.cat (starN n (.cat dotTok (namePart n)))
      (.cat dotTok (.cat (.tok urlNameChar) (rplus n (.tok urlNameChar)))))

/-- (?::\d{2,5})? port part (line 638), without the outer option. -/
def portRE : REx :=
  .cat (rlit ":")
    (.cat digitTok
      (.cat digitTok (ropt (.cat digitTok (ropt (.cat digitTok (ropt digitTok)))))))

/-- (?:\/[^\)\]\}\s]*)? path part (line 639), without the outer option. -/
def pathRE (n : Nat) : REx :=
  .cat (rlit "/")
    (starN n (.tok (fun c => !(c = ')' || c = ']' || c = '\u007d' || pySpace c))))

/-- The full URL_HANDLER_REGEX body after the leading boundary
alternation; the boundary (?:^|(?<![\w\/\.])) consumes nothing and is
handled by the scanner below. -/
def urlRE (n : Nat) : REx :=
  .cat schemeRE
    (.cat (userinfoRE n)
      (.cat (.alt ipBranch (.alt (domainBranch n) (rlitCI "localhost")))
        (.cat (ropt portRE) (ropt (pathRE n)))))

/-- Attempt a match at the head of s; some rest means the engine matched
and leaves rest. -/
def urlMatchAt (s : List Char) : Option (List Char) :=
  (reMatch (urlRE (s.length + 1)) s).head?

/-- The scanning loop of URL_HANDLER_REGEX.sub (line 754) with the
default replacement, a single space.  prev is the character preceding the
current position in the original string (none at position 0), used by the
negative lookbehind. -/
def urlScanAux : Nat → Option Char → List Char → List Char
  | 0, _, s => s
  | _ + 1, _, [] => []
  | fuel + 1, prev, c :: cs =>
    if (match prev with | none => true | some p => !wordSlashDot p) then
      match urlMatchAt (c :: cs) with
      | some rest =>
        ' ' :: urlScanAux fuel
          ((List.take ((c :: cs).length - rest.length) (c :: cs)).getLast?) rest
      | none => c :: urlScanAux fuel (some c) cs
    else c :: urlScanAux fuel (some c) cs

def urlSub (s : List Char) : List Char := urlScanAux s.length none s

/-- Executable test used to state that URL_HANDLER_REGEX can only match
where one of the mandatory scheme prefixes is present: http://, https://,
ftp:// (case-insensitive) or www followed by up to three digits and a
dot. -/
def ciPre : List Char → List Char → Bool
  | [], _ => true
  | _ :: _, [] => false
  | p :: ps, c :: cs => (c.toLower = p.toLower) && ciPre ps cs

def wwwTailK : Nat → List Char → Bool
  | _, [] => false
  | k, c :: cs =>
    if c = '.' then true
    else if c.isDigit then (match k with | 0 => false | k2 + 1 => wwwTailK k2 cs)
    else false

def schemeStartB (s : List Char) : Bool :=
  (ciPre "http".toList s &&
    ((ciPre "s".toList (s.drop 4) && isPreB "://".toList (s.drop 5)) ||
      isPreB "://".toList (s.drop 4))) ||
  (ciPre "ftp".toList s && isPreB "://".toList (s.drop 3)) ||
  (ciPre "www".toList s && wwwTailK 3 (s.drop 3))

/-! ### Remaining normalize stages (lines 724-784) -/

/-- CHAR_REPLACEMENTS (lines 13-525) as an association list. -/
def CHAR_REPLACEMENTS : List (Char × List Char) :=
  [ ('\u00b9', ['\u0031']),
    ('\u00b2', ['\u0032']),
    ('\u00b3', ['\u0033']),
    ('\u00c0', ['\u0041']),
    ('\u00c1', ['\u0041']),
    ('\u00c2', ['\u0041']),
    ('\u00c3', ['\u0041']),
    ('\u00c4', ['\u0041']),
    ('\u00c5', ['\u0041']),
    ('\u0100', ['\u0041']),
    ('\u0102', ['\u0041']),
    ('\u0104', ['\u0041']),
    ('\u01cd', ['\u0041']),
    ('\u01de', ['\u0041']),
    ('\u01e0', ['\u0041']),
    ('\u01fa', ['\u0041']),
    ('\u0200', ['\u0041']),
    ('\u0202', ['\u0041']),
    ('\u0226', ['\u0041']),
    ('\u1e00', ['\u0041']),
    ('\u1ea0', ['\u0041']),
    ('\u1ea2', ['\u0041']),
    ('\u1ea4', ['\u0041']),
    ('\u1ea6', ['\u0041']),
    ('\u1ea8', ['\u0041']),
    ('\u1eaa', ['\u0041']),
    ('\u1eac', ['\u0041']),
    ('\u1eae', ['\u0041']),
    ('\u1eb0', ['\u0041']),
    ('\u1eb2', ['\u0041']),
    ('\u1eb4', ['\u0041']),
    ('\u1eb6', ['\u0041']),
    ('\u00e0', ['\u0061']),
    ('\u00e1', ['\u0061']),
    ('\u00e2', ['\u0061']),
    ('\u00e3', ['\u0061']),
    ('\u00e4', ['\u0061']),
    ('\u00e5', ['\u0061']),
    ('\u00aa', ['\u0061']),
    ('\u0101', ['\u0061']),
    ('\u0103', ['\u0061']),
    ('\u0105', ['\u0061']),
    ('\u01ce', ['\u0061']),
    ('\u01df', ['\u0061']),
    ('\u01e1', ['\u0061']),
    ('\u01fb', ['\u0061']),
    ('\u0201', ['\u0061']),
    ('\u0203', ['\u0061']),
    ('\u0227', ['\u0061']),
    ('\u1e01', ['\u0061']),
    ('\u1ea1', ['\u0061']),
    ('\u1ea3', ['\u0061']),
    ('\u1ea5', ['\u0061']),
    ('\u1ea7', ['\u0061']),
    ('\u1ea9', ['\u0061']),
    ('\u1eab', ['\u0061']),
    ('\u1ead', ['\u0061']),
    ('\u1eaf', ['\u0061']),
    ('\u1eb1', ['\u0061']),
    ('\u1eb3', ['\u0061']),
    ('\u1eb5', ['\u0061']),
    ('\u1eb7', ['\u0061']),
    ('\u1e02', ['\u0042']),
    ('\u1e04', ['\u0042']),
    ('\u1e06', ['\u0042']),
    ('\u1e03', ['\u0062']),
    ('\u1e05', ['\u0062']),
    ('\u1e07', ['\u0062']),
    ('\u00c7', ['\u0043']),
    ('\u0106', ['\u0043']),
    ('\u0108', ['\u0043']),
    ('\u010a', ['\u0043']),
    ('\u010c', ['\u0043']),
    ('\u1e08', ['\u0043']),
    ('\u00e7', ['\u0063']),
    ('\u0107', ['\u0063']),
    ('\u0109', ['\u0063']),
    ('\u010b', ['\u0063']),
    ('\u010d', ['\u0063']),
    ('\u1e09', ['\u0063']),
    ('\u00d0', ['\u0044']),
    ('\u010e', ['\u0044']),
    ('\u0110', ['\u0044']),
    ('\u1e0a', ['\u0044']),
    ('\u1e0c', ['\u0044']),
    ('\u1e0e', ['\u0044']),
    ('\u1e10', ['\u0044']),
    ('\u1e12', ['\u0044']),
    ('\u010f', ['\u0064']),
    ('\u0111', ['\u0064']),
    ('\u1e0b', ['\u0064']),
    ('\u1e0d', ['\u0064']),
    ('\u1e0f', ['\u0064']),
    ('\u1e11', ['\u0064']),
    ('\u1e13', ['\u0064']),
    ('\u00c8', ['\u0045']),
    ('\u00c9', ['\u0045']),
    ('\u00ca', ['\u0045']),
    ('\u00cb', ['\u0045']),
    ('\u0112', ['\u0045']),
    ('\u0114', ['\u0045']),
    ('\u0116', ['\u0045']),
    ('\u0118', ['\u0045']),
    ('\u011a', ['\u0045']),
    ('\u0204', ['\u0045']),
    ('\u0206', ['\u0045']),
    ('\u0228', ['\u0045']),
    ('\u1e14', ['\u0045']),
    ('\u1e16', ['\u0045']),
    ('\u1e18', ['\u0045']),
    ('\u1e1a', ['\u0045']),
    ('\u1e1c', ['\u0045']),
    ('\u1eb8', ['\u0045']),
    ('\u1eba', ['\u0045']),
    ('\u1ebc', ['\u0045']),
    ('\u1ebe', ['\u0045']),
    ('\u1ec0', ['\u0045']),
    ('\u1ec2', ['\u0045']),
    ('\u1ec4', ['\u0045']),
    ('\u1ec6', ['\u0045']),
    ('\u00e8', ['\u0065']),
    ('\u00e9', ['\u0065']),
    ('\u00ea', ['\u0065']),
    ('\u00eb', ['\u0065']),
    ('\u0113', ['\u0065']),
    ('\u0115', ['\u0065']),
    ('\u0117', ['\u0065']),
    ('\u0119', ['\u0065']),
    ('\u011b', ['\u0065']),
    ('\u0205', ['\u0065']),
    ('\u0207', ['\u0065']),
    ('\u0229', ['\u0065']),
    ('\u1e15', ['\u0065']),
    ('\u1e17', ['\u0065']),
    ('\u1e19', ['\u0065']),
    ('\u1e1b', ['\u0065']),
    ('\u1e1d', ['\u0065']),
    ('\u1eb9', ['\u0065']),
    ('\u1ebb', ['\u0065']),
    ('\u1ebd', ['\u0065']),
    ('\u1ebf', ['\u0065']),
    ('\u1ec1', ['\u0065']),
    ('\u1ec3', ['\u0065']),
    ('\u1ec5', ['\u0065']),
    ('\u1ec7', ['\u0065']),
    ('\u1e1e', ['\u0046']),
    ('\u1e1f', ['\u0066']),
    ('\u011c', ['\u0047']),
    ('\u011e', ['\u0047']),
    ('\u0120', ['\u0047']),
    ('\u0122', ['\u0047']),
    ('\u01e6', ['\u0047']),
    ('\u01f4', ['\u0047']),
    ('\u1e20', ['\u0047']),
    ('\u011d', ['\u0067']),
    ('\u011f', ['\u0067']),
    ('\u0121', ['\u0067']),
    ('\u0123', ['\u0067']),
    ('\u01e7', ['\u0067']),
    ('\u01f5', ['\u0067']),
    ('\u1e21', ['\u0067']),
    ('\u0124', ['\u0048']),
    ('\u0126', ['\u0048']),
    ('\u021e', ['\u0048']),
    ('\u1e22', ['\u0048']),
    ('\u1e24', ['\u0048']),
    ('\u1e26', ['\u0048']),
    ('\u1e28', ['\u0048']),
    ('\u1e2a', ['\u0048']),
    ('\u0125', ['\u0068']),
    ('\u0127', ['\u0068']),
    ('\u021f', ['\u0068']),
    ('\u1e23', ['\u0068']),
    ('\u1e25', ['\u0068']),
    ('\u1e27', ['\u0068']),
    ('\u1e29', ['\u0068']),
    ('\u1e2b', ['\u0068']),
    ('\u1e96', ['\u0068']),
    ('\u00cc', ['\u0049']),
    ('\u00cd', ['\u0049']),
    ('\u00ce', ['\u0049']),
    ('\u00cf', ['\u0049']),
    ('\u0128', ['\u0049']),
    ('\u012a', ['\u0049']),
    ('\u012c', ['\u0049']),
    ('\u012e', ['\u0049']),
    ('\u0130', ['\u0049']),
    ('\u01cf', ['\u0049']),
    ('\u0208', ['\u0049']),
    ('\u020a', ['\u0049']),
    ('\u1e2c', ['\u0049']),
    ('\u1e2e', ['\u0049']),
    ('\u1ec8', ['\u0049']),
    ('\u1eca', ['\u0049']),
    ('\u00ec', ['\u0069']),
    ('\u00ed', ['\u0069']),
    ('\u00ee', ['\u0069']),
    ('\u00ef', ['\u0069']),
    ('\u0129', ['\u0069']),
    ('\u012b', ['\u0069']),
    ('\u012d', ['\u0069']),
    ('\u012f', ['\u0069']),
    ('\u0131', ['\u0069']),
    ('\u01d0', ['\u0069']),
    ('\u0209', ['\u0069']),
    ('\u020b', ['\u0069']),
    ('\u1e2d', ['\u0069']),
    ('\u1e2f', ['\u0069']),
    ('\u1ec9', ['\u0069']),
    ('\u1ecb', ['\u0069']),
    ('\u0134', ['\u004a']),
    ('\u0135', ['\u006a']),
    ('\u0136', ['\u004b']),
    ('\u01e8', ['\u004b']),
    ('\u1e30', ['\u004b']),
    ('\u1e32', ['\u004b']),
    ('\u1e34', ['\u004b']),
    ('\u0137', ['\u006b']),
    ('\u01e9', ['\u006b']),
    ('\u1e31', ['\u006b']),
    ('\u1e33', ['\u006b']),
    ('\u1e35', ['\u006b']),
    ('\u0139', ['\u004c']),
    ('\u013b', ['\u004c']),
    ('\u013d', ['\u004c']),
    ('\u013f', ['\u004c']),
    ('\u0141', ['\u004c']),
    ('\u1e36', ['\u004c']),
    ('\u1e38', ['\u004c']),
    ('\u1e3a', ['\u004c']),
    ('\u1e3c', ['\u004c']),
    ('\u013a', ['\u006c']),
    ('\u013c', ['\u006c']),
    ('\u013e', ['\u006c']),
    ('\u0140', ['\u006c']),
    ('\u0142', ['\u006c']),
    ('\u1e37', ['\u006c']),
    ('\u1e39', ['\u006c']),
    ('\u1e3b', ['\u006c']),
    ('\u1e3d', ['\u006c']),
    ('\u1e3e', ['\u004d']),
    ('\u1e40', ['\u004d']),
    ('\u1e42', ['\u004d']),
    ('\u1e3f', ['\u006d']),
    ('\u1e41', ['\u006d']),
    ('\u1e43', ['\u006d']),
    ('\u00d1', ['\u004e']),
    ('\u0143', ['\u004e']),
    ('\u0145', ['\u004e']),
    ('\u0147', ['\u004e']),
    ('\u01f8', ['\u004e']),
    ('\u1e44', ['\u004e']),
    ('\u1e46', ['\u004e']),
    ('\u1e48', ['\u004e']),
    ('\u1e4a', ['\u004e']),
    ('\u00f1', ['\u006e']),
    ('\u0144', ['\u006e']),
    ('\u0146', ['\u006e']),
    ('\u0148', ['\u006e']),
    ('\u01f9', ['\u006e']),
    ('\u1e45', ['\u006e']),
    ('\u1e47', ['\u006e']),
    ('\u1e49', ['\u006e']),
    ('\u1e4b', ['\u006e']),
    ('\u00d2', ['\u004f']),
    ('\u00d3', ['\u004f']),
    ('\u00d4', ['\u004f']),
    ('\u00d5', ['\u004f']),
    ('\u00d6', ['\u004f']),
    ('\u014c', ['\u004f']),
    ('\u014e', ['\u004f']),
    ('\u0150', ['\u004f']),
    ('\u01a0', ['\u004f']),
    ('\u01d1', ['\u004f']),
    ('\u01ea', ['\u004f']),
    ('\u01ec', ['\u004f']),
    ('\u020c', ['\u004f']),
    ('\u020e', ['\u004f']),
    ('\u022a', ['\u004f']),
    ('\u022c', ['\u004f']),
    ('\u022e', ['\u004f']),
    ('\u0230', ['\u004f']),
    ('\u1e4c', ['\u004f']),
    ('\u1e4e', ['\u004f']),
    ('\u1e50', ['\u004f']),
    ('\u1e52', ['\u004f']),
    ('\u1ecc', ['\u004f']),
    ('\u1ece', ['\u004f']),
    ('\u1ed0', ['\u004f']),
    ('\u1ed2', ['\u004f']),
    ('\u1ed4', ['\u004f']),
    ('\u1ed6', ['\u004f']),
    ('\u1ed8', ['\u004f']),
    ('\u1eda', ['\u004f']),
    ('\u1edc', ['\u004f']),
    ('\u1ede', ['\u004f']),
    ('\u1ee0', ['\u004f']),
    ('\u1ee2', ['\u004f']),
    ('\u00f2', ['\u006f']),
    ('\u00f3', ['\u006f']),
    ('\u00f4', ['\u006f']),
    ('\u00f5', ['\u006f']),
    ('\u00f6', ['\u006f']),
    ('\u014d', ['\u006f']),
    ('\u014f', ['\u006f']),
    ('\u0151', ['\u006f']),
    ('\u01a1', ['\u006f']),
    ('\u01d2', ['\u006f']),
    ('\u01eb', ['\u006f']),
    ('\u01ed', ['\u006f']),
    ('\u020d', ['\u006f']),
    ('\u020f', ['\u006f']),
    ('\u022b', ['\u006f']),
    ('\u022d', ['\u006f']),
    ('\u022f', ['\u006f']),
    ('\u0231', ['\u006f']),
    ('\u1e4d', ['\u006f']),
    ('\u1e4f', ['\u006f']),
    ('\u1e51', ['\u006f']),
    ('\u1e53', ['\u006f']),
    ('\u1ecd', ['\u006f']),
    ('\u1ecf', ['\u006f']),
    ('\u1ed1', ['\u006f']),
    ('\u1ed3', ['\u006f']),
    ('\u1ed5', ['\u006f']),
    ('\u1ed7', ['\u006f']),
    ('\u1ed9', ['\u006f']),
    ('\u1edb', ['\u006f']),
    ('\u1edd', ['\u006f']),
    ('\u1edf', ['\u006f']),
    ('\u1ee1', ['\u006f']),
    ('\u1ee3', ['\u006f']),
    ('\u1e54', ['\u0050']),
    ('\u1e56', ['\u0050']),
    ('\u1e55', ['\u0070']),
    ('\u1e57', ['\u0070']),
    ('\u0154', ['\u0052']),
    ('\u0156', ['\u0052']),
    ('\u0158', ['\u0052']),
    ('\u0210', ['\u0052']),
    ('\u0212', ['\u0052']),
    ('\u1e58', ['\u0052']),
    ('\u1e5a', ['\u0052']),
    ('\u1e5c', ['\u0052']),
    ('\u1e5e', ['\u0052']),
    ('\u0155', ['\u0072']),
    ('\u0157', ['\u0072']),
    ('\u0159', ['\u0072']),
    ('\u0211', ['\u0072']),
    ('\u0213', ['\u0072']),
    ('\u1e59', ['\u0072']),
    ('\u1e5b', ['\u0072']),
    ('\u1e5d', ['\u0072']),
    ('\u1e5f', ['\u0072']),
    ('\u015a', ['\u0053']),
    ('\u015c', ['\u0053']),
    ('\u015e', ['\u0053']),
    ('\u0160', ['\u0073']),
    ('\u0218', ['\u0053']),
    ('\u1e60', ['\u0053']),
    ('\u1e62', ['\u0053']),
    ('\u1e64', ['\u0053']),
    ('\u1e66', ['\u0053']),
    ('\u1e68', ['\u0053']),
    ('\u015b', ['\u0073']),
    ('\u015d', ['\u0073']),
    ('\u015f', ['\u0073']),
    ('\u0161', ['\u0073']),
    ('\u0219', ['\u0073']),
    ('\u1e61', ['\u0073']),
    ('\u1e63', ['\u0073']),
    ('\u1e65', ['\u0073']),
    ('\u1e67', ['\u0073']),
    ('\u1e69', ['\u0073']),
    ('\u0162', ['\u0054']),
    ('\u0164', ['\u0054']),
    ('\u0166', ['\u0054']),
    ('\u021a', ['\u0054']),
    ('\u1e6a', ['\u0054']),
    ('\u1e6c', ['\u0054']),
    ('\u1e6e', ['\u0054']),
    ('\u1e70', ['\u0054']),
    ('\u0163', ['\u0074']),
    ('\u0165', ['\u0074']),
    ('\u0167', ['\u0074']),
    ('\u021b', ['\u0074']),
    ('\u1e6b', ['\u0074']),
    ('\u1e6d', ['\u0074']),
    ('\u1e6f', ['\u0074']),
    ('\u1e71', ['\u0074']),
    ('\u1e97', ['\u0074']),
    ('\u00d9', ['\u0055']),
    ('\u00da', ['\u0055']),
    ('\u00db', ['\u0055']),
    ('\u00dc', ['\u0055']),
    ('\u0168', ['\u0055']),
    ('\u016a', ['\u0055']),
    ('\u016c', ['\u0055']),
    ('\u016e', ['\u0055']),
    ('\u0170', ['\u0055']),
    ('\u0172', ['\u0055']),
    ('\u01af', ['\u0055']),
    ('\u01d3', ['\u0055']),
    ('\u01d5', ['\u0055']),
    ('\u01d7', ['\u0055']),
    ('\u01d9', ['\u0055']),
    ('\u01db', ['\u0055']),
    ('\u0214', ['\u0055']),
    ('\u0216', ['\u0055']),
    ('\u1e72', ['\u0055']),
    ('\u1e74', ['\u0055']),
    ('\u1e76', ['\u0055']),
    ('\u1e78', ['\u0055']),
    ('\u1e7a', ['\u0055']),
    ('\u1ee4', ['\u0055']),
    ('\u1ee6', ['\u0055']),
    ('\u1ee8', ['\u0055']),
    ('\u1eea', ['\u0055']),
    ('\u1eec', ['\u0055']),
    ('\u1eee', ['\u0055']),
    ('\u1ef0', ['\u0055']),
    ('\u00f9', ['\u0075']),
    ('\u00fa', ['\u0075']),
    ('\u00fb', ['\u0075']),
    ('\u00fc', ['\u0075']),
    ('\u0169', ['\u0075']),
    ('\u016b', ['\u0075']),
    ('\u016d', ['\u0075']),
    ('\u016f', ['\u0075']),
    ('\u0171', ['\u0075']),
    ('\u0173', ['\u0075']),
    ('\u01b0', ['\u0075']),
    ('\u01d4', ['\u0075']),
    ('\u01d6', ['\u0075']),
    ('\u01d8', ['\u0075']),
    ('\u01da', ['\u0075']),
    ('\u01dc', ['\u0075']),
    ('\u0215', ['\u0075']),
    ('\u0217', ['\u0075']),
    ('\u1e73', ['\u0075']),
    ('\u1e75', ['\u0075']),
    ('\u1e77', ['\u0075']),
    ('\u1e79', ['\u0075']),
    ('\u1e7b', ['\u0075']),
    ('\u1ee5', ['\u0075']),
    ('\u1ee7', ['\u0075']),
    ('\u1ee9', ['\u0075']),
    ('\u1eeb', ['\u0075']),
    ('\u1eed', ['\u0075']),
    ('\u1eef', ['\u0075']),
    ('\u1ef1', ['\u0075']),
    ('\u1e7c', ['\u0056']),
    ('\u1e7e', ['\u0056']),
    ('\u1e7d', ['\u0076']),
    ('\u1e7f', ['\u0076']),
    ('\u0174', ['\u0057']),
    ('\u1e80', ['\u0057']),
    ('\u1e82', ['\u0057']),
    ('\u1e84', ['\u0057']),
    ('\u1e86', ['\u0057']),
    ('\u1e88', ['\u0057']),
    ('\u0175', ['\u0077']),
    ('\u1e81', ['\u0077']),
    ('\u1e83', ['\u0077']),
    ('\u1e85', ['\u0077']),
    ('\u1e87', ['\u0077']),
    ('\u1e89', ['\u0077']),
    ('\u1e98', ['\u0077']),
    ('\u1e8a', ['\u0058']),
    ('\u1e8c', ['\u0058']),
    ('\u1e8b', ['\u0078']),
    ('\u1e8d', ['\u0078']),
    ('\u00dd', ['\u0079']),
    ('\u0176', ['\u0059']),
    ('\u0178', ['\u0059']),
    ('\u0232', ['\u0059']),
    ('\u1e8e', ['\u0059']),
    ('\u1ef2', ['\u0059']),
    ('\u1ef4', ['\u0059']),
    ('\u1ef6', ['\u0059']),
    ('\u1ef8', ['\u0059']),
    ('\u00fd', ['\u0079']),
    ('\u00ff', ['\u0079']),
    ('\u0177', ['\u0079']),
    ('\u0233', ['\u0079']),
    ('\u1e8f', ['\u0079']),
    ('\u1ef3', ['\u0079']),
    ('\u1ef5', ['\u0079']),
    ('\u1ef7', ['\u0079']),
    ('\u1ef9', ['\u0079']),
    ('\u1e99', ['\u0079']),
    ('\u0179', ['\u005a']),
    ('\u017b', ['\u005a']),
    ('\u017d', ['\u005a']),
    ('\u1e90', ['\u005a']),
    ('\u1e92', ['\u005a']),
    ('\u1e94', ['\u005a']),
    ('\u017a', ['\u007a']),
    ('\u017c', ['\u007a']),
    ('\u017e', ['\u007a']),
    ('\u1e91', ['\u007a']),
    ('\u1e93', ['\u007a']),
    ('\u1e95', ['\u007a']),
    ('\u0132', ['\u0049', '\u004a']),
    ('\u0133', ['\u0069', '\u006a']),
    ('\u00f8', ['\u006f']),
    ('\u00d8', ['\u004f']),
    ('\u0268', ['\u0069']),
    ('\u00f0', ['\u0064']) ]

/-- text.translate(CHAR_REPLACEMENTS) (line 765): each code point is
replaced independently; unmapped code points pass through. -/
def translateChars (s : List Char) : List Char :=
  s.flatMap (fun c => ((CHAR_REPLACEMENTS.lookup c).getD [c]))

/-- The \p{punct} class (line 645), restricted to the ASCII punctuation
blocks plus the Bangla danda; this development only ever applies it to
code points on which this restriction agrees with the full Unicode
class. -/
def isPunctChar (c : Char) : Bool :=
  ('!' ≤ c && c ≤ '/') || (':' ≤ c && c ≤ '@') ||
  ('[' ≤ c && c ≤ '\u0060') || ('\u007b' ≤ c && c ≤ '~') ||
  c = '\u0964'

def punctSub (s : List Char) : List Char :=
  s.map (fun c => if isPunctChar c then ' ' else c)

/-- The emoji regexp (line 646), modelled per code point on the main
emoji blocks; the claims settled here do not depend on its exact
extent. -/
def isEmojiChar (c : Char) : Bool :=
  (0x1f000 ≤ c.toNat && c.toNat ≤ 0x1faff) ||
  (0x2600 ≤ c.toNat && c.toNat ≤ 0x27bf) || c = '\u2b55' || c = '\u2b50'

def emojiSub (s : List Char) : List Char :=
  s.map (fun c => if isEmojiChar c then ' ' else c)

/-- unicodedata.normalize("NFKC", text) (line 779), modelled on the code
points this development exercises: NBSP, the horizontal ellipsis, the
superscript digits and the halfwidth-fullwidth block decompose as below;
other code points pass through.  The claims settled here do not depend on
the behavior outside this restriction. -/
def nfkcChar (c : Char) : List Char :=
  if c = '\u00a0' then [' ']
  else if c = '\u2026' then ['.', '.', '.']
  else if c = '\u00b9' then ['1']
  else if c = '\u00b2' then ['2']
  else if c = '\u00b3' then ['3']
  else if 0xff01 ≤ c.toNat && c.toNat ≤ 0xff5e then [Char.ofNat (c.toNat - 0xfee0)]
  else [c]

def nfkc (s : List Char) : List Char := s.flatMap nfkcChar

/-- ftfy.fix_text (line 747): mojibake repair, a total function on str
that is the identity on well-formed text.  The claims settled here do not
depend on its repair behavior, only on its totality; it is modelled as
the identity. -/
def fix_text_model (s : List Char) : List Char := s

/-- WHITESPACE_HANDLER_REGEX.sub(" ", text) (line 782): every maximal run
of whitespace becomes one space. -/
def collapseWsAux : List Char → Bool → List Char
  | [], _ => []
  | c :: cs, inRun =>
    if pySpace c then
      (if inRun then collapseWsAux cs true else ' ' :: collapseWsAux cs true)
    else c :: collapseWsAux cs false

def collapseWs (s : List Char) : List Char := collapseWsAux s false

/-- str.strip() (line 784). -/
def stripList (s : List Char) : List Char :=
  (((s.dropWhile pySpace).reverse).dropWhile pySpace).reverse

/-- The function normalize (lines 724-784) at its default arguments
(the name normalize is taken by Mathlib, hence normalizeText) (NFKC, all three
replacements a single space, unicode normalization applied last):
encoding repair, quote fixing, URL replacement, punctuation replacement,
emoji replacement, per-character translation, the UNICODE_REPLACEMENTS
alternation pass, NFKC, whitespace collapse and strip, in that order. -/
def normalizeText (text : List Char) : List Char :=
  stripList (collapseWs (nfkc (ruleSub URules (translateChars (emojiSub
    (punctSub (urlSub (fix_quotes (fix_text_model text)))))))))

/-- " ".join -/
def joinSp : List (List Char) → List Char
  | [] => []
  | [x] => x
  | x :: y :: ys => x ++ ' ' :: joinSp (y :: ys)

/-- process_extracted_text (lines 823-841): filter noise keywords, join
with single spaces, normalize. -/
def process_extracted_text (detected : List (List Char)) : List Char :=
  normalizeText (joinSp (filter_noise_keywords detected).1)

/-- Exception-aware wrapper: every stage of the Python pipeline is total
on str input (no raise statement, no partial operation on the string
path), which the Except-valued composition below records stage by
stage. -/
def stageE (f : List Char → List Char) (s : List Char) : Except String (List Char) :=
  .ok (f s)

def process_extracted_textE (detected : List (List Char)) :
    Except String (List Char) := do
  let corpus := joinSp (filter_noise_keywords detected).1
  let t1 ← stageE fix_text_model corpus
  let t2 ← stageE fix_quotes t1
  let t3 ← stageE urlSub t2
  let t4 ← stageE punctSub t3
  let t5 ← stageE emojiSub t4
  let t6 ← stageE translateChars t5
  let t7 ← stageE (ruleSub URules) t6
  let t8 ← stageE nfkc t7
  pure (stripList (collapseWs t8))
/-! ## Theorems -/

/-! ### Helper lemmas -/

theorem sigmoid_pos (x : ℝ) : 0 < sigmoid x := by
  unfold sigmoid
  positivity

theorem sigmoid_lt_one (x : ℝ) : sigmoid x < 1 := by
  unfold sigmoid
  have he : 0 < Real.exp (-x) := Real.exp_pos _
  rw [div_lt_one (by linarith)]
  linarith

theorem isPreB_iff : ∀ p s : List Char, isPreB p s = true ↔ ∃ t, p ++ t = s
  | [], s => by simp [isPreB]
  | a :: ps, [] => by simp [isPreB]
  | a :: ps, c :: cs => by
    simp only [isPreB, Bool.and_eq_true, decide_eq_true_eq, isPreB_iff ps cs,
      List.cons_append, List.cons.injEq]
    constructor
    · rintro ⟨rfl, t, rfl⟩
      exact ⟨t, rfl, rfl⟩
    · rintro ⟨t, h1, h2⟩
      exact ⟨h1.symm, t, h2⟩

theorem isSubB_iff (p : List Char) : ∀ s : List Char, isSubB p s = true ↔ p <:+: s
  | [] => by
    constructor
    · intro h
      cases p with
      | nil => exact ⟨[], [], rfl⟩
      | cons a as => simp [isSubB, List.isEmpty] at h
    · rintro ⟨u, v, huv⟩
      cases p with
      | nil => simp [isSubB, List.isEmpty]
      | cons a as =>
        exfalso
        cases u <;> simp_all
  | c :: cs => by
    constructor
    · intro h
      rw [isSubB, Bool.or_eq_true] at h
      rcases h with h1 | h2
      · obtain ⟨t, ht⟩ := (isPreB_iff p (c :: cs)).mp h1
        exact ⟨[], t, by simpa using ht⟩
      · obtain ⟨u, v, huv⟩ := (isSubB_iff p cs).mp h2
        exact ⟨c :: u, v, by simp [huv]⟩
    · rintro ⟨u, v, huv⟩
      rw [isSubB, Bool.or_eq_true]
      cases u with
      | nil =>
        left
        exact (isPreB_iff p (c :: cs)).mpr ⟨v, by simpa using huv⟩
      | cons b bs =>
        right
        apply (isSubB_iff p cs).mpr
        simp only [List.cons_append] at huv
        injection huv with h1 h2
        exact ⟨bs, v, h2⟩

theorem get_norm_append (u v : List Char) :
    get_norm (u ++ v) = get_norm u ++ get_norm v := by
  simp [get_norm, List.filter_append]

theorem get_norm_mono {p s : List Char} (h : p <:+: s) :
    get_norm p <:+: get_norm s := by
  obtain ⟨u, v, rfl⟩ := h
  exact ⟨get_norm u, get_norm v, by simp [get_norm_append]⟩

theorem findKw_none_iff (ks : List (List Char)) (n : List Char) :
    findKw ks n = none ↔ ∀ kw ∈ ks, isSubB (get_norm kw) n = false := by
  induction ks with
  | nil => simp [findKw]
  | cons k ks ih =>
    rw [findKw]
    by_cases hk : isSubB (get_norm k) n = true
    · rw [if_pos hk]
      refine iff_of_false (by simp) ?_
      intro hall
      have := hall k (by simp)
      rw [hk] at this
      exact absurd this (by simp)
    · rw [if_neg hk, ih]
      constructor
      · intro h kw hkw
        rcases List.mem_cons.mp hkw with rfl | h2
        · exact Bool.eq_false_iff.mpr hk
        · exact h kw h2
      · intro h kw hkw
        exact h kw (List.mem_cons_of_mem _ hkw)

theorem findKw_some_spec (ks : List (List Char)) (n : List Char) (kw : List Char)
    (h : findKw ks n = some kw) :
    isSubB (get_norm kw) n = true ∧
    ∃ l1 l2, ks = l1 ++ kw :: l2 ∧ ∀ k ∈ l1, isSubB (get_norm k) n = false := by
  induction ks with
  | nil => simp [findKw] at h
  | cons a as ih =>
    rw [findKw] at h
    by_cases ha : isSubB (get_norm a) n = true
    · rw [if_pos ha] at h
      injection h with h2
      subst h2
      exact ⟨ha, [], as, rfl, by simp⟩
    · rw [if_neg ha] at h
      obtain ⟨h1, l1, l2, heq, hall⟩ := ih h
      refine ⟨h1, a :: l1, l2, by simp [heq], ?_⟩
      intro k hk
      rcases List.mem_cons.mp hk with rfl | h2
      · exact Bool.eq_false_iff.mpr ha
      · exact hall k h2

theorem findKw_none_iff_any (ks : List (List Char)) (n : List Char) :
    findKw ks n = none ↔ ks.any (fun kw => isSubB (get_norm kw) n) = false := by
  rw [findKw_none_iff, List.any_eq_false]
  constructor
  · intro h kw hkw
    simp [h kw hkw]
  · intro h kw hkw
    have := h kw hkw
    revert this
    cases isSubB (get_norm kw) n <;> simp

theorem filter_noise_fst (ts : List (List Char)) :
    (filter_noise_keywords ts).1 = ts.filter
      (fun i => !(NOISE_KEYWORDS.any (fun kw => isSubB (get_norm kw) (get_norm i)))) := by
  induction ts with
  | nil => rfl
  | cons i ts ih =>
    cases hfk : findKw NOISE_KEYWORDS (get_norm i) with
    | some kw =>
      have hany : NOISE_KEYWORDS.any (fun kw => isSubB (get_norm kw) (get_norm i)) = true := by
        by_contra hc
        rw [(findKw_none_iff_any NOISE_KEYWORDS (get_norm i)).mpr
          (Bool.eq_false_iff.mpr hc)] at hfk
        exact absurd hfk (by simp)
      simp [filter_noise_keywords, hfk, ih, List.filter_cons, hany]
    | none =>
      have hany := (findKw_none_iff_any NOISE_KEYWORDS (get_norm i)).mp hfk
      simp [filter_noise_keywords, hfk, ih, List.filter_cons, hany]

theorem filter_noise_snd (ts : List (List Char)) :
    (filter_noise_keywords ts).2 = ts.filterMap
      (fun i => findKw NOISE_KEYWORDS (get_norm i)) := by
  induction ts with
  | nil => rfl
  | cons i ts ih =>
    cases hfk : findKw NOISE_KEYWORDS (get_norm i) with
    | some kw => simp [filter_noise_keywords, hfk, ih, List.filterMap_cons]
    | none => simp [filter_noise_keywords, hfk, ih, List.filterMap_cons]

theorem all_noise_clean : ∀ ts : List (List Char),
    (∀ f ∈ ts, ∃ kw ∈ NOISE_KEYWORDS, get_norm kw <:+: get_norm f) →
    (filter_noise_keywords ts).1 = []
  | [], _ => rfl
  | f :: rest, h => by
    obtain ⟨kw, hkw, hin⟩ := h f (by simp)
    have hsub : isSubB (get_norm kw) (get_norm f) = true := (isSubB_iff _ _).mpr hin
    have ihr := all_noise_clean rest (fun g hg => h g (by simp [hg]))
    cases hfk : findKw NOISE_KEYWORDS (get_norm f) with
    | none =>
      have := (findKw_none_iff _ _).mp hfk kw hkw
      rw [hsub] at this
      exact absurd this (by simp)
    | some kw2 =>
      simp [filter_noise_keywords, hfk, ihr]

/-! ### The claims -/

/-- C1: for every logit, the classifier result of predict has confidence
in the interval from 0.5 to 1.0, political probability in the interval
from 0 to 1, non-political probability equal to one minus the political
probability, label Political exactly when the political probability
exceeds 0.5, and confidence equal to the probability mass assigned to the
predicted class. -/
theorem C1_predict_bounds (logit : ℝ) :
    0.5 ≤ (predict logit).confidence ∧
    (predict logit).confidence ≤ 1 ∧
    0 ≤ (predict logit).political_probability ∧
    (predict logit).political_probability ≤ 1 ∧
    (predict logit).non_political_probability
      = 1 - (predict logit).political_probability ∧
    ((predict logit).prediction = "Political"
      ↔ (predict logit).political_probability > 0.5) ∧
    (predict logit).confidence
      = (if (predict logit).political_probability > 0.5
          then (predict logit).political_probability
          else 1 - (predict logit).political_probability) := by
  have h0 : 0 < sigmoid logit := sigmoid_pos logit
  have h1 : sigmoid logit < 1 := sigmoid_lt_one logit
  have hpred : (predict logit).prediction
      = if sigmoid logit > 0.5 then "Political" else "NonPolitical" := rfl
  have hconf : (predict logit).confidence
      = if sigmoid logit > 0.5 then sigmoid logit else 1 - sigmoid logit := rfl
  have hpol : (predict logit).political_probability = sigmoid logit := rfl
  have hnon : (predict logit).non_political_probability
      = 1 - sigmoid logit := rfl
  rw [hpred, hconf, hpol, hnon]
  by_cases hp : sigmoid logit > 0.5
  · rw [if_pos hp, if_pos hp]
    exact ⟨le_of_lt hp, le_of_lt h1, le_of_lt h0, le_of_lt h1, rfl,
      ⟨fun _ => hp, fun _ => rfl⟩, rfl⟩
  · have hle : sigmoid logit ≤ 0.5 := not_lt.mp hp
    rw [if_neg hp, if_neg hp]
    refine ⟨by linarith, by linarith, le_of_lt h0, le_of_lt h1, rfl, ?_, rfl⟩
    exact ⟨fun h => absurd h (by decide), fun h => absurd h hp⟩

/-- C2 counterexample: the claim normalizes with all whitespace removed,
but get_norm removes only the space character U+0020.  The fragment
Fol-TAB-low contains the keyword Follow under the whitespace-removing
normalization of the claim, so the claim says it is dropped; the code
retains it. -/
theorem C2_noise_filter_counterexample :
    (∃ kw ∈ NOISE_KEYWORDS,
      get_norm_specWording kw <:+:
        get_norm_specWording ['F', 'o', 'l', Char.ofNat 9, 'l', 'o', 'w']) ∧
    (filter_noise_keywords [['F', 'o', 'l', Char.ofNat 9, 'l', 'o', 'w']]).1
      = [['F', 'o', 'l', Char.ofNat 9, 'l', 'o', 'w']] := by
  constructor
  · exact ⟨"Follow".toList, by decide, [], [], by decide⟩
  · decide

/-- C2 amended: a fragment is dropped exactly when its get_norm form
(lowercase, space characters U+0020 removed - not all whitespace)
contains the get_norm form of at least one noise keyword; a dropped
fragment is credited to the first keyword in table order that matches;
retained fragments are kept unchanged in their original order. -/
theorem C2_noise_filter_amended (ts : List (List Char)) :
    ((filter_noise_keywords ts).1 = ts.filter
      (fun i => !(NOISE_KEYWORDS.any (fun kw => isSubB (get_norm kw) (get_norm i))))) ∧
    (∀ i : List Char,
      NOISE_KEYWORDS.any (fun kw => isSubB (get_norm kw) (get_norm i)) = true
        ↔ ∃ kw ∈ NOISE_KEYWORDS, get_norm kw <:+: get_norm i) ∧
    ((filter_noise_keywords ts).2 = ts.filterMap
      (fun i => findKw NOISE_KEYWORDS (get_norm i))) ∧
    (∀ i kw : List Char, findKw NOISE_KEYWORDS (get_norm i) = some kw →
      (get_norm kw <:+: get_norm i) ∧
      ∃ l1 l2, NOISE_KEYWORDS = l1 ++ kw :: l2 ∧
        ∀ k ∈ l1, ¬ (get_norm k <:+: get_norm i)) := by
  refine ⟨filter_noise_fst ts, ?_, filter_noise_snd ts, ?_⟩
  · intro i
    rw [List.any_eq_true]
    constructor
    · rintro ⟨kw, hkw, h⟩
      exact ⟨kw, hkw, (isSubB_iff _ _).mp h⟩
    · rintro ⟨kw, hkw, h⟩
      exact ⟨kw, hkw, (isSubB_iff _ _).mpr h⟩
  · intro i kw h
    obtain ⟨h1, l1, l2, heq, hall⟩ := findKw_some_spec _ _ _ h
    refine ⟨(isSubB_iff _ _).mp h1, l1, l2, heq, ?_⟩
    intro k hk hcon
    have hc := (isSubB_iff _ _).mpr hcon
    rw [hall k hk] at hc
    exact absurd hc (by simp)

theorem C2_noise_filter_amended_witness :
    (get_norm "Follow".toList <:+: get_norm "Follow us".toList) ∧
    ∃ l1 l2, NOISE_KEYWORDS = l1 ++ "Follow".toList :: l2 ∧
      ∀ k ∈ l1, ¬ (get_norm k <:+: get_norm "Follow us".toList) :=
  (C2_noise_filter_amended []).2.2.2 "Follow us".toList "Follow".toList (by decide)

/-- C3: the canonicalizer is deterministic - it is a pure function of the
fragment list, so equal inputs give equal outputs. -/
theorem C3_canonical_deterministic (ts1 ts2 : List (List Char)) (h : ts1 = ts2) :
    process_extracted_text ts1 = process_extracted_text ts2 := by rw [h]

theorem C3_canonical_deterministic_witness :
    process_extracted_text ["Great day".toList]
      = process_extracted_text ["Great day".toList] :=
  C3_canonical_deterministic _ _ rfl

/-- C4 counterexample: on the fragment list of the claim, noise filtering
drops BOTH fragments - Great meme today normalizes to greatmemetoday,
which contains the table keyword MEME - so the retained list is empty and
the output corpus is not derived from Great meme today. -/
theorem C4_example_counterexample :
    filter_noise_keywords ["Follow us".toList, "Great meme today".toList]
      = ([], ["Follow".toList, "MEME".toList]) ∧
    "Great meme today".toList ∉
      (filter_noise_keywords ["Follow us".toList, "Great meme today".toList]).1 := by
  decide

/-- C4 amended: on the fragment list of the claim, Follow us is dropped
(credited to Follow) and Great meme today is also dropped (credited to
MEME, whose normalized form meme is contained in greatmemetoday), so the
retained list and the final corpus are both empty. -/
theorem C4_example_amended :
    (filter_noise_keywords ["Follow us".toList, "Great meme today".toList]).1 = [] ∧
    (filter_noise_keywords ["Follow us".toList, "Great meme today".toList]).2
      = ["Follow".toList, "MEME".toList] ∧
    isSubB (get_norm "MEME".toList) (get_norm "Great meme today".toList) = true ∧
    process_extracted_text ["Follow us".toList, "Great meme today".toList] = [] := by
  decide

/-- C8: canonicalizing the empty fragment list gives the empty string,
and canonicalizing any fragment list in which every fragment contains a
noise keyword also gives the empty string; no placeholder is
substituted. -/
theorem C8_empty_results (ts : List (List Char))
    (h : ∀ f ∈ ts, ∃ kw ∈ NOISE_KEYWORDS, get_norm kw <:+: get_norm f) :
    process_extracted_text [] = [] ∧ process_extracted_text ts = [] := by
  refine ⟨rfl, ?_⟩
  show normalizeText (joinSp (filter_noise_keywords ts).1) = []
  rw [all_noise_clean ts h]
  rfl

theorem C8_empty_results_witness :
    process_extracted_text [] = [] ∧
    process_extracted_text ["Follow us".toList] = [] := by
  refine C8_empty_results ["Follow us".toList] ?_
  intro f hf
  rw [List.mem_singleton] at hf
  subst hf
  exact ⟨"Follow".toList, by decide, [], "us".toList, by decide⟩

/-- C9: the canonicalization pipeline is total - modelling each Python
stage as an Except-valued step, none of them can fail, and the pipeline
always returns the canonical string. -/
theorem C9_pipeline_total (ts : List (List Char)) :
    process_extracted_textE ts = Except.ok (process_extracted_text ts) := rfl

/-- C10: since .com is a noise keyword and matching is substring
containment on the lowercased space-stripped fragment, every fragment
containing .com is dropped by the noise filter (for any surrounding
fragment list), hence never reaches the URL-replacement stage. -/
theorem C10_dotcom_dropped (ts : List (List Char)) (i : List Char)
    (h : ['.', 'c', 'o', 'm'] <:+: i) :
    i ∉ (filter_noise_keywords ts).1 := by
  intro hmem
  rw [filter_noise_fst ts] at hmem
  have hm := List.mem_filter.mp hmem
  have hany : NOISE_KEYWORDS.any
      (fun kw => isSubB (get_norm kw) (get_norm i)) = false := by
    simpa using hm.2
  have hcom : isSubB (get_norm ['.', 'c', 'o', 'm']) (get_norm i) = true :=
    (isSubB_iff _ _).mpr (get_norm_mono h)
  have hfls := List.any_eq_false.mp hany ['.', 'c', 'o', 'm'] (by decide)
  rw [hcom] at hfls
  exact hfls rfl

theorem C10_dotcom_dropped_witness :
    "see https://x.com now".toList ∉
      (filter_noise_keywords ["see https://x.com now".toList]).1 :=
  C10_dotcom_dropped _ _ ⟨"see https://x".toList, " now".toList, by decide⟩
theorem tryRules_cons_none {r : Rule} {rs : List Rule} {s : List Char}
    (h : matchRule r s = none) : tryRules (r :: rs) s = tryRules rs s := by
  simp [tryRules, h]

theorem tryRules_cons_some {r : Rule} {rs : List Rule} {s : List Char}
    {v : List Char × List Char} (h : matchRule r s = some v) :
    tryRules (r :: rs) s = some v := by
  simp [tryRules, h]

/-- C5 counterexample: for the three-code-point sequence U+09C7 U+09BE
U+09D7 - whose second element is not U+09D7, so the claim says the
back-reference rule rewrites it - the earlier table entry U+09C7 U+09BE
matches first, giving U+09CB U+09D7; neither the literal reading of the
claim (keep the first code point: U+09C7 U+09CC) nor the captured-group
reading (U+09BE U+09CC) is produced. -/
theorem C5_backref_counterexample :
    ruleSub URules ['\u09c7', '\u09be', '\u09d7'] = ['\u09cb', '\u09d7'] ∧
    ruleSub URules ['\u09c7', '\u09be', '\u09d7'] ≠ ['\u09be', '\u09cc'] ∧
    ruleSub URules ['\u09c7', '\u09be', '\u09d7'] ≠ ['\u09c7', '\u09cc'] := by
  decide

/-- C5 amended: when the second element x of the sequence U+09C7 x U+09D7
is none of U+09D7, U+09BE and U+0981 (for the latter two an earlier table
entry matches first), the back-reference rule consumes the sequence and
rewrites it to the captured second code point followed by U+09CC - the
leading U+09C7 is dropped, not kept. -/
theorem C5_backref_amended (x : Char)
    (h1 : x ≠ '\u09d7') (h2 : x ≠ '\u09be') (h3 : x ≠ '\u0981') :
    ruleSub URules ['\u09c7', x, '\u09d7'] = [x, '\u09cc'] := by
  have htry : tryRules URules ['\u09c7', x, '\u09d7']
      = some ([x, '\u09cc'], []) := by
    simp only [URules]
    rw [tryRules_cons_none (by rfl)]
    rw [tryRules_cons_none (by rfl)]
    rw [tryRules_cons_none (by rfl)]
    rw [tryRules_cons_none (by rfl)]
    rw [tryRules_cons_none (by rfl)]
    rw [tryRules_cons_none (by simp [matchRule, litMatch, h2])]
    rw [tryRules_cons_none (by simp [matchRule, litMatch, h1])]
    rw [tryRules_cons_none (by rfl)]
    rw [tryRules_cons_none (by simp [matchRule, litMatch, h3])]
    rw [tryRules_cons_none (by simp [matchRule, litMatch, h3])]
    exact tryRules_cons_some (by simp [matchRule, h1])
  show ruleSubAux URules 3 ['\u09c7', x, '\u09d7'] = [x, '\u09cc']
  rw [show (3 : Nat) = 2 + 1 from rfl, ruleSubAux, htry]
  rfl

theorem C5_backref_amended_witness :
    ruleSub URules ['\u09c7', '\u0995', '\u09d7'] = ['\u0995', '\u09cc'] :=
  C5_backref_amended '\u0995' (by decide) (by decide) (by decide)

/-- C6 counterexample: the two-code-point pattern U+00B4 U+00B4 does not
take precedence over the single U+00B4, because U+00B4 is listed earlier
in the table and the alternation is first-listed-wins; likewise U+00A0
is listed before U+00A0 U+00AB U+00A0.  The outputs differ from what the
longer patterns would produce. -/
theorem C6_order_counterexample :
    ruleSub URules ['\u00b4', '\u00b4'] = ['\u0027', '\u0027'] ∧
    ruleSub URules ['\u00b4', '\u00b4'] ≠ ['\u0022'] ∧
    ruleSub URules ['\u00a0', '\u00ab', '\u00a0'] = [' ', '\u0022'] ∧
    ruleSub URules ['\u00a0', '\u00ab', '\u00a0'] ≠ ['\u0022'] := by
  decide

/-- C6 amended: in the compiled alternation the alternatives are tried in
table insertion order and the first listed alternative that matches wins
at each position, regardless of length; a longer overlapping pattern
listed later is shadowed (in particular U+00B4 shadows U+00B4 U+00B4, and
U+00A0 shadows U+00A0 U+00AB U+00A0, as the witness instantiates). -/
theorem C6_first_listed_wins (l1 : List Rule) (r : Rule) (l2 : List Rule)
    (s : List Char) (v : List Char × List Char)
    (hsplit : URules = l1 ++ r :: l2)
    (hnone : ∀ r2 ∈ l1, matchRule r2 s = none)
    (hmatch : matchRule r s = some v) :
    tryRules URules s = some v := by
  rw [hsplit]
  clear hsplit
  revert hnone
  induction l1 with
  | nil =>
    intro _
    rw [List.nil_append]
    exact tryRules_cons_some hmatch
  | cons a as ih =>
    intro hnone
    rw [List.cons_append, tryRules_cons_none (hnone a (by simp))]
    exact ih (fun r2 h2 => hnone r2 (by simp [h2]))

theorem C6_first_listed_wins_witness :
    tryRules URules ['\u00b4', '\u00b4'] = some (['\u0027'], ['\u00b4']) :=
  C6_first_listed_wins (URules.take 19) (Rule.lit ['\u00b4'] ['\u0027'])
    (URules.drop 20) ['\u00b4', '\u00b4'] (['\u0027'], ['\u00b4'])
    (by decide) (by decide) (by decide)
theorem reMatch_eps (s : List Char) : reMatch .eps s = [s] := rfl

theorem reMatch_cat (a b : REx) (s : List Char) :
    reMatch (.cat a b) s = (reMatch a s).flatMap (fun u => reMatch b u) := rfl

theorem reMatch_alt (a b : REx) (s : List Char) :
    reMatch (.alt a b) s = reMatch a s ++ reMatch b s := rfl

theorem reMatch_tok_nil (p : Char → Bool) : reMatch (.tok p) [] = [] := rfl

theorem reMatch_tok_cons (p : Char → Bool) (c : Char) (cs : List Char) :
    reMatch (.tok p) (c :: cs) = if p c then [cs] else [] := rfl

theorem reMatch_rlitCIL : ∀ p s : List Char,
    reMatch (rlitCIL p) s = if ciPre p s then [s.drop p.length] else []
  | [], s => by simp [rlitCIL, reMatch, ciPre]
  | c :: cs, [] => by simp [rlitCIL, reMatch, ciPre]
  | c :: cs, d :: ds => by
    by_cases h : d.toLower = c.toLower
    · simp [rlitCIL, reMatch, ciPre, h, reMatch_rlitCIL cs ds]
    · simp [rlitCIL, reMatch, ciPre, h]

theorem reMatch_rlitL : ∀ p s : List Char,
    reMatch (rlitL p) s = if isPreB p s then [s.drop p.length] else []
  | [], s => by simp [rlitL, reMatch, isPreB]
  | c :: cs, [] => by simp [rlitL, reMatch, isPreB]
  | c :: cs, d :: ds => by
    by_cases h : d = c
    · simp [rlitL, reMatch, isPreB, h, reMatch_rlitL cs ds]
    · simp [rlitL, reMatch, isPreB, h]

theorem digitsUpTo_dot : ∀ (k : Nat) (t : List Char),
    reMatch (.cat (digitsUpTo k) (rlit ".")) t ≠ [] → wwwTailK k t = true
  | 0, t, h => by
    rw [digitsUpTo, reMatch_cat, reMatch_eps] at h
    simp only [List.flatMap_cons, List.flatMap_nil, List.append_nil,
      rlit, reMatch_rlitL, show ("." : String).toList = ['.'] from rfl] at h
    rcases t with _ | ⟨c, ts⟩
    · simp [isPreB] at h
    · by_cases hc : c = '.'
      · simp [wwwTailK, hc]
      · simp [isPreB, hc] at h
  | k + 1, t, h => by
    rw [digitsUpTo, ropt, reMatch_cat, reMatch_alt, reMatch_eps,
      List.flatMap_append] at h
    simp only [List.flatMap_cons, List.flatMap_nil, List.append_nil] at h
    by_cases hB : reMatch (rlit ".") t = []
    · have hA : (reMatch (.cat digitTok (digitsUpTo k)) t).flatMap
          (fun u => reMatch (rlit ".") u) ≠ [] := by
        intro hA0
        apply h
        rw [hA0, hB]
        rfl
      rcases t with _ | ⟨c, ts⟩
      · exfalso
        apply hA
        rw [reMatch_cat, digitTok, reMatch_tok_nil]
        rfl
      · by_cases hd : c.isDigit
        · have hrec : reMatch (.cat (digitsUpTo k) (rlit ".")) ts ≠ [] := by
            intro h0
            apply hA
            rw [reMatch_cat, digitTok, reMatch_tok_cons, if_pos hd]
            simp only [List.flatMap_cons, List.flatMap_nil, List.append_nil]
            rw [show ((reMatch (digitsUpTo k) ts).flatMap
              (fun u => reMatch (rlit ".") u))
                = reMatch (.cat (digitsUpTo k) (rlit ".")) ts from rfl, h0]
          have hwk := digitsUpTo_dot k ts hrec
          by_cases hc : c = '.'
          · simp [wwwTailK, hc]
          · simp [wwwTailK, hc, hd, hwk]
        · exfalso
          apply hA
          rw [reMatch_cat, digitTok, reMatch_tok_cons, if_neg (by simp [hd])]
          rfl
    · rw [rlit, reMatch_rlitL,
        show ("." : String).toList = ['.'] from rfl] at hB
      rcases t with _ | ⟨c, ts⟩
      · simp [isPreB] at hB
      · by_cases hc : c = '.'
        · simp [wwwTailK, hc]
        · simp [isPreB, hc] at hB

theorem httpBranch_start (s : List Char)
    (h : reMatch (.cat (rlitCI "http") (.cat (ropt (rlitCI "s")) (rlit "://"))) s
      ≠ []) :
    (ciPre "http".toList s &&
      ((ciPre "s".toList (s.drop 4) && isPreB "://".toList (s.drop 5)) ||
        isPreB "://".toList (s.drop 4))) = true := by
  rw [reMatch_cat] at h
  simp only [rlitCI, reMatch_rlitCIL] at h
  by_cases hc : ciPre "http".toList s = true
  · rw [if_pos hc, show ("http".toList).length = 4 from rfl] at h
    simp only [List.flatMap_cons, List.flatMap_nil, List.append_nil] at h
    rw [reMatch_cat, ropt, reMatch_alt, reMatch_eps,
      reMatch_rlitCIL, show ("s".toList).length = 1 from rfl,
      List.flatMap_append] at h
    simp only [List.flatMap_cons, List.flatMap_nil, List.append_nil,
      rlit, reMatch_rlitL] at h
    by_cases hs : ciPre "s".toList (s.drop 4) = true
    · rw [if_pos hs] at h
      simp only [List.flatMap_cons, List.flatMap_nil, List.append_nil] at h
      by_cases h1 : isPreB "://".toList ((s.drop 4).drop 1) = true
      · rw [List.drop_drop, show (1 : Nat) + 4 = 5 from rfl] at h1
        rw [hc, hs, h1]
        simp
      · rw [if_neg h1] at h
        by_cases h2 : isPreB "://".toList (s.drop 4) = true
        · rw [hc, h2]
          simp
        · rw [if_neg h2] at h
          simp at h
    · rw [if_neg hs] at h
      simp only [List.flatMap_nil, List.nil_append] at h
      by_cases h2 : isPreB "://".toList (s.drop 4) = true
      · rw [hc, h2]
        simp
      · rw [if_neg h2] at h
        simp at h
  · rw [if_neg hc] at h
    simp at h

theorem ftpBranch_start (s : List Char)
    (h : reMatch (.cat (rlitCI "ftp") (rlit "://")) s ≠ []) :
    (ciPre "ftp".toList s && isPreB "://".toList (s.drop 3)) = true := by
  rw [reMatch_cat] at h
  simp only [rlitCI, reMatch_rlitCIL] at h
  by_cases hc : ciPre "ftp".toList s = true
  · rw [if_pos hc, show ("ftp".toList).length = 3 from rfl] at h
    simp only [List.flatMap_cons, List.flatMap_nil, List.append_nil,
      rlit, reMatch_rlitL] at h
    by_cases h2 : isPreB "://".toList (s.drop 3) = true
    · rw [hc, h2]
      simp
    · rw [if_neg h2] at h
      simp at h
  · rw [if_neg hc] at h
    simp at h

theorem wwwBranch_start (s : List Char)
    (h : reMatch (.cat (rlitCI "www") (.cat (digitsUpTo 3) (rlit "."))) s ≠ []) :
    (ciPre "www".toList s && wwwTailK 3 (s.drop 3)) = true := by
  rw [reMatch_cat] at h
  simp only [rlitCI, reMatch_rlitCIL] at h
  by_cases hc : ciPre "www".toList s = true
  · rw [if_pos hc, show ("www".toList).length = 3 from rfl] at h
    simp only [List.flatMap_cons, List.flatMap_nil, List.append_nil] at h
    have := digitsUpTo_dot 3 (s.drop 3) h
    rw [hc, this]
    simp
  · rw [if_neg hc] at h
    simp at h

theorem scheme_match_start (s : List Char) (h : reMatch schemeRE s ≠ []) :
    schemeStartB s = true := by
  rw [schemeRE] at h
  simp only [reMatch_alt] at h
  simp only [ne_eq, List.append_eq_nil, not_and_or] at h
  rw [schemeStartB]
  rcases h with h1 | h2 | h3
  · rw [httpBranch_start s h1]
    simp
  · rw [ftpBranch_start s h2]
    simp
  · rw [wwwBranch_start s h3]
    simp

theorem scheme_no_match (s : List Char) (h : schemeStartB s = false) :
    reMatch schemeRE s = [] := by
  by_contra hne
  rw [scheme_match_start s hne] at h
  exact absurd h (by simp)

theorem urlRE_no_match (n : Nat) (s : List Char) (h : schemeStartB s = false) :
    reMatch (urlRE n) s = [] := by
  have hs := scheme_no_match s h
  rw [urlRE, reMatch_cat, hs]
  rfl

theorem urlScanAux_id : ∀ (fuel : Nat) (prev : Option Char) (s : List Char),
    (∀ t, t <:+ s → schemeStartB t = false) → urlScanAux fuel prev s = s
  | 0, prev, s, _ => rfl
  | fuel + 1, prev, [], _ => rfl
  | fuel + 1, prev, c :: cs, h => by
    have hmat : urlMatchAt (c :: cs) = none := by
      rw [urlMatchAt, urlRE_no_match _ _ (h (c :: cs) ⟨[], rfl⟩)]
      rfl
    have hrec := urlScanAux_id fuel (some c) cs
      (fun t ht => h t (ht.trans ⟨[c], rfl⟩))
    show (if (match prev with | none => true | some p => !wordSlashDot p) then
        match urlMatchAt (c :: cs) with
        | some rest => ' ' :: urlScanAux fuel
            ((List.take ((c :: cs).length - rest.length) (c :: cs)).getLast?) rest
        | none => c :: urlScanAux fuel (some c) cs
      else c :: urlScanAux fuel (some c) cs) = c :: cs
    split
    · rw [hmat]
      show c :: urlScanAux fuel (some c) cs = c :: cs
      rw [hrec]
    · rw [hrec]

/-- C7 counterexample: a bare domain-like token with a TLD and the bare
literal localhost are NOT replaced by the URL stage, because the compiled
scheme group (http, https, ftp or www plus up to three digits and a dot)
is mandatory in URL_HANDLER_REGEX. -/
theorem C7_url_counterexample :
    urlSub "example.com".toList = "example.com".toList ∧
    urlSub "example.com".toList ≠ [' '] ∧
    urlSub "localhost".toList = "localhost".toList ∧
    urlSub "localhost".toList ≠ [' '] := by
  refine ⟨by decide, by decide, by decide, by decide⟩

/-- C7 amended: the URL stage replaces a match only where one of the
mandatory scheme prefixes http://, https://, ftp:// (case-insensitive) or
www plus up to three digits and a dot is present - a string none of whose
positions carries such a prefix is left unchanged (so bare domain tokens,
bare IP literals and bare localhost are not replaced); with a scheme
prefix, domain-with-TLD hosts, localhost and public dotted quads are
replaced by the placeholder, while the private and loopback dotted-quad
ranges are excluded, so http://10.0.0.1 matches no branch and is left
unchanged while http://8.8.8.8 is replaced. -/
theorem C7_url_replacement :
    (∀ s : List Char, s.tails.all (fun t => !schemeStartB t) = true →
      urlSub s = s) ∧
    urlSub "http://8.8.8.8".toList = [' '] ∧
    urlSub "http://10.0.0.1".toList = "http://10.0.0.1".toList ∧
    urlSub "http://example.com/page".toList = [' '] ∧
    urlSub "http://localhost".toList = [' '] ∧
    urlSub "www.example.com".toList = [' '] ∧
    urlSub "example.com".toList = "example.com".toList ∧
    urlSub "localhost".toList = "localhost".toList := by
  refine ⟨?_, by decide, by decide, by decide, by decide, by decide,
    by decide, by decide⟩
  intro s hall
  apply urlScanAux_id
  intro t ht
  have hmem : t ∈ s.tails := (List.mem_tails t s).mpr ht
  have := List.all_eq_true.mp hall t hmem
  simpa using this

theorem C7_url_replacement_witness :
    urlSub "hello world".toList = "hello world".toList :=
  (C7_url_replacement).1 "hello world".toList (by decide)
